import Mathlib

/-
Shallow embedding of the actuation-choreography core of the two scripts
`classifier_app.py` and `gemini_trigger_app.py` of the waste-segregation
repository.  The in-scope core (angle mapping, eased sweep, deposit
programs, label routing, shutdown handling) is embedded as follows:

* Observable behaviour is modelled as a trace of `Event`s at the
  granularity of source statements: one `Event.sweep` per `sine_sweep`
  call, one `Event.sleep` per `time.sleep`, one `Event.print` per
  `print`, one `Event.detach` per `servo.detach()`, plus `cameraStop`
  for `picam2.stop()`.  Angles and sleep durations are rationals.
* The per-step numeric behaviour of `sine_sweep` (the value written to
  `servo.value` at step `i` of `steps`) is embedded over the reals as
  `sweepValue`, with `Real.sin` standing for `math.sin` (exact real
  arithmetic in place of IEEE doubles).
* Python's `str.lower()` / `str.upper()` are modelled character-wise
  (`py_lower` / `py_upper`); the classification labels involved are
  ASCII, for which this is exact.
* The commanded positions of the two servos form a `ServoState`; a
  trace is executed against it by `execTrace`, where a sweep leaves the
  servo at the last value commanded by the step loop
  (`sweepValue start end 200 200`, the calls all use the default
  `steps=200`).
-/

/-- The two actuators defined in both scripts (`servo_tilt` on GPIO 17,
`servo_pan` on GPIO 27). -/
inductive ServoId
  | tilt
  | pan
  deriving DecidableEq

/-- One observable step of the scripts, at statement granularity. -/
inductive Event
  | sweep (servo : ServoId) (start_deg end_deg : ℚ)
  | sleep (seconds : ℚ)
  | print (msg : String)
  | detach (servo : ServoId)
  | cameraStop
  deriving DecidableEq

/-- `deg_to_val(deg): return (deg / 90) - 1` — identical in both scripts. -/
def deg_to_val (deg : ℚ) : ℚ :=
  (deg / 90) - 1

/-- Python `str.lower()`, character-wise (exact for the ASCII labels used). -/
def py_lower (s : String) : String :=
  String.mk (s.data.map Char.toLower)

/-- Python `str.upper()`, character-wise (exact for the ASCII labels used). -/
def py_upper (s : String) : String :=
  String.mk (s.data.map Char.toUpper)

/-- An event that commands motion or pauses the motion program
(a sweep or a sleep): the "motion trace" of a program. -/
def isMotion (e : Event) : Bool :=
  match e with
  | Event.sweep _ _ _ => true
  | Event.sleep _ => true
  | _ => false

/-- An event that writes servo values (a `sine_sweep` call). -/
def isServoWrite (e : Event) : Bool :=
  match e with
  | Event.sweep _ _ _ => true
  | _ => false

/-- An event that writes values to the pan servo. -/
def isPanWrite (e : Event) : Bool :=
  match e with
  | Event.sweep ServoId.pan _ _ => true
  | _ => false

/-- The sub-trace of motion events (sweeps and pauses) of a trace. -/
def motionTrace (tr : List Event) : List Event :=
  tr.filter isMotion

/-- The sub-trace of servo-writing events of a trace. -/
def servoWrites (tr : List Event) : List Event :=
  tr.filter isServoWrite

/-- The two exceptional ways the `while True` main loop of either script
terminates; both land in the same `finally` block. -/
inductive ExitReason
  | keyboardInterrupt
  | unexpectedException
  deriving DecidableEq

namespace Classifier

def CENTER_POS : ℚ := 90

def WET_POS : ℚ := 45

def DRY_POS : ℚ := 135

/-- `run_deposit_sequence(target_angle)` of `classifier_app.py`:
pan center→target, pause 0.5 s, tilt center→0, pause 1 s, tilt 0→center,
pan target→center. -/
def run_deposit_sequence (target_angle : ℚ) : List Event :=
  [Event.print ("1. Panning to target angle (" ++ toString target_angle ++ " deg)"),
   Event.sweep ServoId.pan CENTER_POS target_angle,
   Event.sleep 0.5,
   Event.print "2. Tilting to drop waste...",
   Event.sweep ServoId.tilt CENTER_POS 0,
   Event.sleep 1,
   Event.sweep ServoId.tilt 0 CENTER_POS,
   Event.print ("3. Returning Pan to Center (" ++ toString CENTER_POS ++ " deg)"),
   Event.sweep ServoId.pan target_angle CENTER_POS,
   Event.print "Deposit sequence complete."]

/-- `trigger_actuator(waste_type)` of `classifier_app.py`: routes the
lower-cased label to a deposit program; unknown labels produce no motion. -/
def trigger_actuator (waste_type : String) : List Event :=
  Event.print ("**Action:** Directing waste to the **" ++ py_upper waste_type ++ "** bin.") ::
  (if py_lower waste_type = "wet" then
    run_deposit_sequence WET_POS
  else if py_lower waste_type = "dry" then
    run_deposit_sequence DRY_POS
  else if py_lower waste_type = "mixed" then
    [Event.print "No pan required (Mixed Waste). Tilting to drop...",
     Event.sweep ServoId.tilt CENTER_POS 0,
     Event.sleep 1,
     Event.sweep ServoId.tilt 0 CENTER_POS]
  else
    [Event.print "ERROR: Unknown classification result. Staying at center.",
     Event.sleep 0.5])

/-- One iteration of the `__main__` loop of `classifier_app.py` after
`capture_and_classify()` returned `(predicted_class, confidence)`: the
result is printed (confidence included) and the label alone is routed. -/
def main_loop_cycle (predicted_class : String) (confidence : ℚ) : List Event :=
  Event.print "--- CLASSIFICATION RESULT ---" ::
  Event.print ("Predicted Class: **" ++ predicted_class ++ "**") ::
  Event.print ("Confidence: " ++ toString confidence) ::
  trigger_actuator predicted_class

/-- The `__main__` loop of `classifier_app.py` over a list of
classification results: each cycle runs and the loop continues with the
next one, whatever the label was. -/
def run_cycles (results : List (String × ℚ)) : List Event :=
  match results with
  | [] => []
  | r :: rest => main_loop_cycle r.1 r.2 ++ run_cycles rest

/-- The `finally` block of `classifier_app.py`: stop camera, detach both
servos, report.  No servo value is written here. -/
def finally_block : List Event :=
  [Event.cameraStop,
   Event.detach ServoId.tilt,
   Event.detach ServoId.pan,
   Event.print "Camera stopped and servos detached. System resources released. Exiting."]

/-- The full exit trace of `classifier_app.py` for each way the main loop
terminates: the matching `except` handler prints, then `finally` runs. -/
def shutdown_trace (r : ExitReason) : List Event :=
  (match r with
   | ExitReason.keyboardInterrupt => [Event.print "[INFO] Program stopped by user (Ctrl+C)."]
   | ExitReason.unexpectedException => [Event.print "An unexpected error occurred."]) ++
  finally_block

end Classifier

namespace Gemini

def CENTER_POS : ℚ := 90

def WET_POS : ℚ := 135

def DRY_POS : ℚ := 45

def MIXED_HAZ_POS : ℚ := 135

/-- `run_drop_tilt_cycle(tilt_pos, return_pos=CENTER_POS)` of
`gemini_trigger_app.py`: tilt return→tilt_pos, pause 1 s, tilt
tilt_pos→return (the call site uses the default `return_pos`). -/
def run_drop_tilt_cycle (tilt_pos return_pos : ℚ) : List Event :=
  [Event.sweep ServoId.tilt return_pos tilt_pos,
   Event.sleep 1,
   Event.sweep ServoId.tilt tilt_pos return_pos]

/-- `run_pan_tilt_sequence(pan_target, tilt_target)` of
`gemini_trigger_app.py`.  Note the source never uses `tilt_target`:
the tilt sweeps are hard-coded to 180. -/
def run_pan_tilt_sequence (pan_target tilt_target : ℚ) : List Event :=
  [Event.print ("1. Panning to target angle (" ++ toString pan_target ++ " deg)"),
   Event.sweep ServoId.pan CENTER_POS pan_target,
   Event.sleep 0.5,
   Event.print "2. Tilting fully to 180 degrees...",
   Event.sweep ServoId.tilt CENTER_POS 180,
   Event.sleep 1,
   Event.sweep ServoId.tilt 180 CENTER_POS,
   Event.print ("3. Returning Pan to Center (" ++ toString CENTER_POS ++ " deg)"),
   Event.sweep ServoId.pan pan_target CENTER_POS,
   Event.print "Deposit sequence complete."]

/-- `trigger_actuator(classification)` of `gemini_trigger_app.py`:
exact string match on the (already lower-cased) classification. -/
def trigger_actuator (classification : String) : List Event :=
  Event.print ("**Action:** Directing waste to the **" ++ py_upper classification ++ "** bin.") ::
  (if classification = "wet" then
    Event.print "WET WASTE DETECTED: Running tilt-only drop sequence." ::
    run_drop_tilt_cycle 0 CENTER_POS
  else if classification = "dry" then
    Event.print "DRY WASTE DETECTED: Running custom pan and full tilt drop sequence." ::
    run_pan_tilt_sequence DRY_POS 180
  else if classification = "mixed" then
    Event.print "MIXED WASTE DETECTED: Running custom pan and full tilt drop sequence." ::
    run_pan_tilt_sequence MIXED_HAZ_POS 180
  else
    [Event.print ("Actuator ignored. Classification error or unknown result: " ++ classification)])

/-- The `finally` block of `gemini_trigger_app.py`: identical resource
release to the classifier script. -/
def finally_block : List Event :=
  [Event.cameraStop,
   Event.detach ServoId.tilt,
   Event.detach ServoId.pan,
   Event.print "Camera stopped and servos detached. System resources released. Exiting."]

/-- The full exit trace of `gemini_trigger_app.py` for each way the main
loop terminates. -/
def shutdown_trace (r : ExitReason) : List Event :=
  (match r with
   | ExitReason.keyboardInterrupt => [Event.print "[INFO] Program stopped by user (Ctrl+C)."]
   | ExitReason.unexpectedException => [Event.print "An unexpected error occurred."]) ++
  finally_block

end Gemini

/-- The eased fraction computed by `sine_sweep` at step `i` of `steps`:
`t = i/steps`, `eased_val = sin(pi*(t-0.5))`, fraction `(eased_val+1)/2`. -/
noncomputable def easedFraction (steps i : ℕ) : ℝ :=
  (Real.sin (Real.pi * ((i : ℝ) / (steps : ℝ) - 0.5)) + 1) / 2

/-- The value `sine_sweep(servo, start_deg, end_deg, steps, ...)` writes to
`servo.value` at step `i`:
`start_val + (delta_val * ((eased_val + 1) / 2))`. -/
noncomputable def sweepValue (start_deg end_deg : ℚ) (steps i : ℕ) : ℝ :=
  ((deg_to_val start_deg : ℚ) : ℝ) +
    (((deg_to_val end_deg : ℚ) : ℝ) - ((deg_to_val start_deg : ℚ) : ℝ)) * easedFraction steps i

/-- The commanded (normalized) values of the two servos. -/
structure ServoState where
  tilt : ℝ
  pan : ℝ

/-- Executing one event against the servo state: a sweep leaves the servo
at the last value its step loop commanded (`i = steps = 200`, the default
used at every call site); prints, sleeps, detaches and the camera stop do
not write servo values. -/
noncomputable def execEvent (st : ServoState) (e : Event) : ServoState :=
  match e with
  | Event.sweep ServoId.tilt a b => ServoState.mk (sweepValue a b 200 200) st.pan
  | Event.sweep ServoId.pan a b => ServoState.mk st.tilt (sweepValue a b 200 200)
  | _ => st

/-- Executing a trace against the servo state, in order. -/
noncomputable def execTrace (st : ServoState) : List Event → ServoState
  | [] => st
  | e :: tr => execTrace (execEvent st e) tr

/-- Both servos at the Neutral Position command value `deg_to_val 90`,
as set at startup by both scripts. -/
noncomputable def neutralState : ServoState :=
  ServoState.mk ((deg_to_val 90 : ℚ) : ℝ) ((deg_to_val 90 : ℚ) : ℝ)

/-- A sweep event that commands servo `s` to the Neutral Position (90°). -/
def isNeutralReturnCommand (s : ServoId) (e : Event) : Bool :=
  match e with
  | Event.sweep s2 _ end_deg => decide (s2 = s) && decide (end_deg = 90)
  | _ => false

/-- Following the spec's words: in trace `tr`, servo `s` is commanded back
to Neutral before any `detach` of `s` occurs. -/
def returnsNeutralBeforeDetach (tr : List Event) (s : ServoId) : Bool :=
  (tr.takeWhile (fun e => decide (e ≠ Event.detach s))).any (isNeutralReturnCommand s)

/-- At step `i = 0` the eased fraction is `0` (regardless of `steps`,
since Lean's `0 / 0 = 0` also gives `sin(-pi/2)`). -/
lemma easedFraction_zero (n : ℕ) : easedFraction n 0 = 0 := by
  have h : ((0 : ℕ) : ℝ) / (n : ℝ) - 0.5 = -(1 / 2) := by
    push_cast
    norm_num
  rw [easedFraction, h, mul_neg, mul_one_div, Real.sin_neg, Real.sin_pi_div_two]
  norm_num

/-- At the final step `i = steps` (with at least one step) the eased
fraction is `1`. -/
lemma easedFraction_last (n : ℕ) (hn : 1 ≤ n) : easedFraction n n = 1 := by
  have h0 : ((n : ℕ) : ℝ) ≠ 0 := Nat.cast_ne_zero.mpr (by omega)
  have h : ((n : ℕ) : ℝ) / (n : ℝ) - 0.5 = 1 / 2 := by
    rw [div_self h0]
    norm_num
  rw [easedFraction, h, mul_one_div, Real.sin_pi_div_two]
  norm_num

/-- The first value a sweep commands is exactly the start angle's value. -/
lemma sweepValue_first (a b : ℚ) (n : ℕ) : sweepValue a b n 0 = ((deg_to_val a : ℚ) : ℝ) := by
  rw [sweepValue, easedFraction_zero]
  ring

/-- The last value a sweep commands is exactly the end angle's value. -/
lemma sweepValue_last (a b : ℚ) (n : ℕ) (hn : 1 ≤ n) :
    sweepValue a b n n = ((deg_to_val b : ℚ) : ℝ) := by
  rw [sweepValue, easedFraction_last n hn]
  ring

/-- Specialisation to the default `steps=200` used at every call site. -/
lemma sweepValue_200 (a b : ℚ) : sweepValue a b 200 200 = ((deg_to_val b : ℚ) : ℝ) :=
  sweepValue_last a b 200 (by norm_num)

/-- Claim C5: the angle-to-command mapping is exactly
`normalized = (angleDegrees / 90) - 1`, with `deg_to_val 0 = -1`,
`deg_to_val 90 = 0` and `deg_to_val 180 = 1`. -/
theorem C5_deg_to_val_exact :
    (∀ deg : ℚ, deg_to_val deg = deg / 90 - 1) ∧
    deg_to_val 0 = -1 ∧ deg_to_val 90 = 0 ∧ deg_to_val 180 = 1 := by
  refine ⟨fun _ => rfl, ?_, ?_, ?_⟩ <;> norm_num [deg_to_val]

/-- Claim C6: for every `stepCount n ≥ 1` the eased fraction is `0` at
step `0` and `1` at step `n`, so the first commanded value of a sweep is
`deg_to_val startAngle` and the last is exactly `deg_to_val endAngle`. -/
theorem C6_sweep_boundary_exact (n : ℕ) (a b : ℚ) (hn : 1 ≤ n) :
    easedFraction n 0 = 0 ∧ easedFraction n n = 1 ∧
    sweepValue a b n 0 = ((deg_to_val a : ℚ) : ℝ) ∧
    sweepValue a b n n = ((deg_to_val b : ℚ) : ℝ) :=
  ⟨easedFraction_zero n, easedFraction_last n hn,
   sweepValue_first a b n, sweepValue_last a b n hn⟩

/-- Witness for C6 at `n = 200`, `a = 90`, `b = 0` (the wet tilt drop). -/
theorem C6_witness : easedFraction 200 0 = 0 ∧ easedFraction 200 200 = 1 ∧
    sweepValue 90 0 200 0 = ((deg_to_val 90 : ℚ) : ℝ) ∧
    sweepValue 90 0 200 200 = ((deg_to_val 0 : ℚ) : ℝ) :=
  C6_sweep_boundary_exact 200 90 0 (by norm_num)

/-- Claim C7: sweeping from `a` to `b` and back to `a` restores the
actuator's commanded value, given it started at `deg_to_val a`. -/
theorem C7_sweep_round_trip (a b : ℚ) (st : ServoState)
    (ha0 : 0 ≤ a) (ha1 : a ≤ 180) (hb0 : 0 ≤ b) (hb1 : b ≤ 180)
    (hst : st.tilt = ((deg_to_val a : ℚ) : ℝ)) :
    (execTrace st [Event.sweep ServoId.tilt a b, Event.sweep ServoId.tilt b a]).tilt = st.tilt := by
  simp [execTrace, execEvent, sweepValue_200, hst]

/-- Witness for C7 at `a = 0`, `b = 180`. -/
theorem C7_witness :
    (execTrace (ServoState.mk ((deg_to_val 0 : ℚ) : ℝ) 0)
      [Event.sweep ServoId.tilt 0 180, Event.sweep ServoId.tilt 180 0]).tilt =
      (ServoState.mk ((deg_to_val 0 : ℚ) : ℝ) 0).tilt :=
  C7_sweep_round_trip 0 180 (ServoState.mk ((deg_to_val 0 : ℚ) : ℝ) 0)
    (by norm_num) (by norm_num) (by norm_num) (by norm_num) rfl

/-- The eased fraction always lies in `[0, 1]` (the sine is bounded). -/
lemma easedFraction_mem (n i : ℕ) : 0 ≤ easedFraction n i ∧ easedFraction n i ≤ 1 := by
  constructor
  · have h := Real.neg_one_le_sin (Real.pi * ((i : ℝ) / (n : ℝ) - 0.5))
    rw [easedFraction]
    linarith
  · have h := Real.sin_le_one (Real.pi * ((i : ℝ) / (n : ℝ) - 0.5))
    rw [easedFraction]
    linarith

/-- Interpolating with a fraction in `[0, 1]` stays between the endpoints. -/
lemma interp_between (s e f : ℝ) (h0 : 0 ≤ f) (h1 : f ≤ 1) :
    min s e ≤ s + (e - s) * f ∧ s + (e - s) * f ≤ max s e := by
  rcases le_total s e with h | h
  · rw [min_eq_left h, max_eq_right h]
    constructor <;> nlinarith
  · rw [min_eq_right h, max_eq_left h]
    constructor <;> nlinarith

/-- Over the angle domain `[0, 180]` the mapping lands in `[-1, 1]`. -/
lemma deg_to_val_mem (a : ℚ) (h0 : 0 ≤ a) (h1 : a ≤ 180) :
    (-1 : ℝ) ≤ ((deg_to_val a : ℚ) : ℝ) ∧ ((deg_to_val a : ℚ) : ℝ) ≤ 1 := by
  have hlo : (-1 : ℚ) ≤ deg_to_val a := by
    rw [deg_to_val]
    have : (0 : ℚ) ≤ a / 90 := by positivity
    linarith
  have hhi : deg_to_val a ≤ 1 := by
    rw [deg_to_val]
    have : a / 90 ≤ 2 := by linarith
    linarith
  constructor
  · exact_mod_cast hlo
  · exact_mod_cast hhi

/-- Claim C9: every value a sweep commands lies between the start and end
angles' values and hence within the driver's admissible `[-1, 1]` range. -/
theorem C9_sweep_in_range (a b : ℚ) (n i : ℕ)
    (ha0 : 0 ≤ a) (ha1 : a ≤ 180) (hb0 : 0 ≤ b) (hb1 : b ≤ 180) (hi : i ≤ n) :
    min ((deg_to_val a : ℚ) : ℝ) ((deg_to_val b : ℚ) : ℝ) ≤ sweepValue a b n i ∧
    sweepValue a b n i ≤ max ((deg_to_val a : ℚ) : ℝ) ((deg_to_val b : ℚ) : ℝ) ∧
    (-1 : ℝ) ≤ sweepValue a b n i ∧ sweepValue a b n i ≤ 1 := by
  obtain ⟨hf0, hf1⟩ := easedFraction_mem n i
  obtain ⟨hlo, hhi⟩ := interp_between ((deg_to_val a : ℚ) : ℝ) ((deg_to_val b : ℚ) : ℝ)
    (easedFraction n i) hf0 hf1
  obtain ⟨ha2, ha3⟩ := deg_to_val_mem a ha0 ha1
  obtain ⟨hb2, hb3⟩ := deg_to_val_mem b hb0 hb1
  rw [sweepValue]
  refine ⟨hlo, hhi, ?_, ?_⟩
  · exact le_trans (le_min ha2 hb2) hlo
  · exact le_trans hhi (max_le ha3 hb3)

/-- Witness for C9 at the dry pan sweep `90 → 135` of `classifier_app.py`,
step 100 of 200. -/
theorem C9_witness :
    min ((deg_to_val 90 : ℚ) : ℝ) ((deg_to_val 135 : ℚ) : ℝ) ≤ sweepValue 90 135 200 100 ∧
    sweepValue 90 135 200 100 ≤ max ((deg_to_val 90 : ℚ) : ℝ) ((deg_to_val 135 : ℚ) : ℝ) ∧
    (-1 : ℝ) ≤ sweepValue 90 135 200 100 ∧ sweepValue 90 135 200 100 ≤ 1 :=
  C9_sweep_in_range 90 135 200 100 (by norm_num) (by norm_num) (by norm_num) (by norm_num)
    (by norm_num)

/-- Claim C1 counterexample: on the operator-interrupt exit path of
`classifier_app.py`, the shutdown trace contains no command returning the
pan actuator to Neutral before its detach — the `finally` block only
stops the camera and detaches; the claimed neutral return does not occur. -/
theorem C1_counterexample :
    ¬ (returnsNeutralBeforeDetach (Classifier.shutdown_trace ExitReason.keyboardInterrupt)
        ServoId.pan = true) := by
  decide

/-- Claim C1 (amended): on every exit path both scripts release both
actuators (detach events present) after stopping the camera, but no servo
value is written on the way out: the actuators are NOT commanded back to
Neutral before control is released. -/
theorem C1_shutdown_detaches_without_neutral (r : ExitReason) :
    servoWrites (Classifier.shutdown_trace r) = [] ∧
    Event.detach ServoId.tilt ∈ Classifier.shutdown_trace r ∧
    Event.detach ServoId.pan ∈ Classifier.shutdown_trace r ∧
    servoWrites (Gemini.shutdown_trace r) = [] ∧
    Event.detach ServoId.tilt ∈ Gemini.shutdown_trace r ∧
    Event.detach ServoId.pan ∈ Gemini.shutdown_trace r := by
  cases r <;> exact ⟨by decide, by decide, by decide, by decide, by decide, by decide⟩

/-- Claim C2 counterexample: in `classifier_app.py` the label "wet" does
NOT run the tilt-only program — its trace commands the pan servo
(`run_deposit_sequence(WET_POS)` pans to 45°). -/
theorem C2_counterexample :
    ¬ ((Classifier.trigger_actuator "wet").filter isPanWrite = []) := by
  decide

/-- Claim C2 (amended): in `gemini_trigger_app.py` the label "wet" selects
the tilt-only program with motion trace exactly
`[tilt 90→0, pause 1 s, tilt 0→90]` and the pan servo never commanded,
and "dry" selects the pan-tilt program targeting the configured dry pan
angle 45°; in `classifier_app.py`, however, "wet" selects the pan-tilt
program targeting `WET_POS = 45°` (the pan servo IS commanded) and "dry"
the pan-tilt program targeting `DRY_POS = 135°`. -/
theorem C2_routing_amended :
    motionTrace (Gemini.trigger_actuator "wet") =
      [Event.sweep ServoId.tilt 90 0, Event.sleep 1, Event.sweep ServoId.tilt 0 90] ∧
    (Gemini.trigger_actuator "wet").filter isPanWrite = [] ∧
    motionTrace (Gemini.trigger_actuator "dry") =
      [Event.sweep ServoId.pan 90 45, Event.sleep 0.5,
       Event.sweep ServoId.tilt 90 180, Event.sleep 1, Event.sweep ServoId.tilt 180 90,
       Event.sweep ServoId.pan 45 90] ∧
    motionTrace (Classifier.trigger_actuator "wet") =
      [Event.sweep ServoId.pan 90 45, Event.sleep 0.5,
       Event.sweep ServoId.tilt 90 0, Event.sleep 1, Event.sweep ServoId.tilt 0 90,
       Event.sweep ServoId.pan 45 90] ∧
    motionTrace (Classifier.trigger_actuator "dry") =
      [Event.sweep ServoId.pan 90 135, Event.sleep 0.5,
       Event.sweep ServoId.tilt 90 0, Event.sleep 1, Event.sweep ServoId.tilt 0 90,
       Event.sweep ServoId.pan 135 90] := by
  refine ⟨by decide, by decide, by rfl, by rfl, by rfl⟩

/-- Claim C8: the pan-tilt deposit program of each script executes exactly
the segments: pan Neutral→target, pause 0.5 s, tilt Neutral→drop angle,
pause 1 s, tilt drop angle→Neutral, pan target→Neutral, in this order and
with no other motion interleaved (drop angle 0° in `classifier_app.py`,
180° in `gemini_trigger_app.py`). -/
theorem C8_pan_tilt_program_order (target_angle pan_target tilt_target : ℚ) :
    motionTrace (Classifier.run_deposit_sequence target_angle) =
      [Event.sweep ServoId.pan 90 target_angle, Event.sleep 0.5,
       Event.sweep ServoId.tilt 90 0, Event.sleep 1, Event.sweep ServoId.tilt 0 90,
       Event.sweep ServoId.pan target_angle 90] ∧
    motionTrace (Gemini.run_pan_tilt_sequence pan_target tilt_target) =
      [Event.sweep ServoId.pan 90 pan_target, Event.sleep 0.5,
       Event.sweep ServoId.tilt 90 180, Event.sleep 1, Event.sweep ServoId.tilt 180 90,
       Event.sweep ServoId.pan pan_target 90] := by
  constructor <;>
    simp [Classifier.run_deposit_sequence, Gemini.run_pan_tilt_sequence,
      Classifier.CENTER_POS, Gemini.CENTER_POS, motionTrace, isMotion, List.filter]

/-- Claim C4: a label outside the recognized set (also empty labels and
error markers) produces zero servo writes in both scripts, the event is
reported on the console, the servo state is left untouched, and the main
loop goes on to the next cycle. -/
theorem C4_unknown_label_no_motion (label : String)
    (hc : py_lower label ∉ (["wet", "dry", "mixed"] : List String))
    (hg : label ∉ (["wet", "dry", "mixed"] : List String)) :
    servoWrites (Classifier.trigger_actuator label) = [] ∧
    Event.print "ERROR: Unknown classification result. Staying at center."
      ∈ Classifier.trigger_actuator label ∧
    (∀ st : ServoState, execTrace st (Classifier.trigger_actuator label) = st) ∧
    servoWrites (Gemini.trigger_actuator label) = [] ∧
    Event.print ("Actuator ignored. Classification error or unknown result: " ++ label)
      ∈ Gemini.trigger_actuator label ∧
    (∀ st : ServoState, execTrace st (Gemini.trigger_actuator label) = st) ∧
    (∀ (c : ℚ) (rest : List (String × ℚ)),
      Classifier.run_cycles ((label, c) :: rest) =
        Classifier.main_loop_cycle label c ++ Classifier.run_cycles rest) := by
  simp only [List.mem_cons, List.not_mem_nil, or_false, not_or] at hc hg
  obtain ⟨hw, hd, hm⟩ := hc
  obtain ⟨gw, gd, gm⟩ := hg
  simp only [Classifier.trigger_actuator, Gemini.trigger_actuator,
    if_neg hw, if_neg hd, if_neg hm, if_neg gw, if_neg gd, if_neg gm]
  refine ⟨by simp [servoWrites, isServoWrite], by simp, fun st => by simp [execTrace, execEvent],
    by simp [servoWrites, isServoWrite], by simp, fun st => by simp [execTrace, execEvent],
    fun c rest => rfl⟩

/-- Witness for C4 at the spec's scenario label "unknown_garbage". -/
theorem C4_witness :
    servoWrites (Classifier.trigger_actuator "unknown_garbage") = [] ∧
    servoWrites (Gemini.trigger_actuator "unknown_garbage") = [] :=
  ⟨(C4_unknown_label_no_motion "unknown_garbage" (by decide) (by decide)).1,
   (C4_unknown_label_no_motion "unknown_garbage" (by decide) (by decide)).2.2.2.1⟩

/-- Claim C10: two classification results with the same label and
different confidences yield the same motion trace and the same servo
state evolution — confidence never influences routing or motion. -/
theorem C10_confidence_noninterference (label : String) (c1 c2 : ℚ) :
    motionTrace (Classifier.main_loop_cycle label c1) =
      motionTrace (Classifier.main_loop_cycle label c2) ∧
    (∀ st : ServoState, execTrace st (Classifier.main_loop_cycle label c1) =
      execTrace st (Classifier.main_loop_cycle label c2)) := by
  constructor
  · simp [Classifier.main_loop_cycle, motionTrace, isMotion]
  · intro st
    simp [Classifier.main_loop_cycle, execTrace, execEvent]

/-- Executing a concatenated trace is executing the parts in order. -/
lemma execTrace_append (st : ServoState) (t1 t2 : List Event) :
    execTrace st (t1 ++ t2) = execTrace (execTrace st t1) t2 := by
  induction t1 generalizing st with
  | nil => rfl
  | cons e tr ih => simp [execTrace, ih]

/-- `run_deposit_sequence` leaves both servos at Neutral (the pan servo
is swept back to `CENTER_POS` and the tilt servo ends its cycle there). -/
lemma execTrace_deposit (t : ℚ) (st : ServoState) :
    execTrace st (Classifier.run_deposit_sequence t) = neutralState := by
  simp [Classifier.run_deposit_sequence, Classifier.CENTER_POS, execTrace, execEvent,
    sweepValue_200, neutralState]

/-- The wet tilt-only cycle of `gemini_trigger_app.py` leaves both servos
at Neutral when the pan servo starts there (it never touches pan). -/
lemma execTrace_gemini_droptilt (st : ServoState)
    (hpan : st.pan = ((deg_to_val 90 : ℚ) : ℝ)) :
    execTrace st (Gemini.run_drop_tilt_cycle 0 Gemini.CENTER_POS) = neutralState := by
  simp [Gemini.run_drop_tilt_cycle, Gemini.CENTER_POS, execTrace, execEvent,
    sweepValue_200, neutralState, hpan]

/-- `run_pan_tilt_sequence` leaves both servos at Neutral. -/
lemma execTrace_gemini_pantilt (p tt : ℚ) (st : ServoState) :
    execTrace st (Gemini.run_pan_tilt_sequence p tt) = neutralState := by
  simp [Gemini.run_pan_tilt_sequence, Gemini.CENTER_POS, execTrace, execEvent,
    sweepValue_200, neutralState]

/-- Routing any label from Neutral ends at Neutral (deposit programs end
there; unknown labels do not move at all). -/
lemma execTrace_trigger_neutral (l : String) :
    execTrace neutralState (Classifier.trigger_actuator l) = neutralState := by
  simp only [Classifier.trigger_actuator, execTrace, execEvent]
  split_ifs
  · exact execTrace_deposit _ _
  · exact execTrace_deposit _ _
  · simp [execTrace, execEvent, Classifier.CENTER_POS, sweepValue_200, neutralState]
  · simp [execTrace, execEvent]

/-- One full main-loop cycle from Neutral ends at Neutral. -/
lemma execTrace_cycle_neutral (l : String) (c : ℚ) :
    execTrace neutralState (Classifier.main_loop_cycle l c) = neutralState := by
  simp only [Classifier.main_loop_cycle, execTrace, execEvent]
  exact execTrace_trigger_neutral l

/-- Any number of completed main-loop cycles from Neutral ends at Neutral. -/
lemma execTrace_cycles_neutral (results : List (String × ℚ)) :
    execTrace neutralState (Classifier.run_cycles results) = neutralState := by
  induction results with
  | nil => rfl
  | cons r rest ih =>
    rw [Classifier.run_cycles, execTrace_append, execTrace_cycle_neutral, ih]

/-- Claim C3: every deposit program run to completion from Neutral leaves
both commanded servo values at `deg_to_val 90` (the `neutralState`), and
no sequence of completed classification cycles accumulates drift. -/
theorem C3_programs_end_neutral (st : ServoState) (hst : st = neutralState) :
    (∀ t : ℚ, execTrace st (Classifier.run_deposit_sequence t) = neutralState) ∧
    execTrace st (Gemini.run_drop_tilt_cycle 0 Gemini.CENTER_POS) = neutralState ∧
    (∀ p tt : ℚ, execTrace st (Gemini.run_pan_tilt_sequence p tt) = neutralState) ∧
    (∀ results : List (String × ℚ),
      execTrace st (Classifier.run_cycles results) = neutralState) := by
  subst hst
  exact ⟨fun t => execTrace_deposit t _, execTrace_gemini_droptilt _ rfl,
    fun p tt => execTrace_gemini_pantilt p tt _, execTrace_cycles_neutral⟩

/-- Witness for C3: the dry deposit program of `classifier_app.py` run
from Neutral ends at Neutral. -/
theorem C3_witness :
    execTrace neutralState (Classifier.run_deposit_sequence 135) = neutralState :=
  (C3_programs_end_neutral neutralState rfl).1 135
